import Mathlib

/-!
Shallow embedding of the `uuid` Go package (RFC4122 UUID generation and
parsing).  Byte buffers are modelled as `List Nat` with every element
below 256; machine-integer truncation (`byte`, `uint16`, `uint32`,
`uint64` casts) is written explicitly as `% 2^w`.  Fallible operations
return `Except`.
-/

namespace Uuid

/-- `uuidSize = 16` from the source. -/
def uuidSize : Nat := 16

/-- Variant constant `rfc4122 = 0x04`. -/
def rfc4122 : Nat := 0x04

/-- Variant constant `future = 0x07`. -/
def future : Nat := 0x07

/-- Read byte `i` of a buffer (0 when out of range; buffers in all
theorems carry a length hypothesis, matching Go's fixed `[16]byte`). -/
def byteAt (u : List Nat) (i : Nat) : Nat := u.getD i 0

/-- `version`: `u[6] = (u[6] & 0x0F) | (v << 4)` with byte truncation of
the shifted value. -/
def version (u : List Nat) (v : Nat) : List Nat :=
  u.set 6 (Nat.lor (Nat.land (byteAt u 6) 0x0F) ((v <<< 4) % 256))

/-- `variant`: the `switch` assigns mask `0x3F` in the `default` and
`rfc4122` cases and `0x1F` in the `future` case, then
`u[8] = (u[8] & mask) | (v << 5)` with byte truncation. -/
def variant (u : List Nat) (v : Nat) : List Nat :=
  let mask : Nat := if v = future then 0x1F else 0x3F
  u.set 8 (Nat.lor (Nat.land (byteAt u 8) mask) ((v <<< 5) % 256))

/-- `insertTimestamp`: big-endian `PutUint32(b[0:], uint32 t)`,
`PutUint16(b[4:], uint16 (t >> 32))`, `PutUint16(b[6:], uint16 (t >> 48))`. -/
def insertTimestamp (u : List Nat) (t : Nat) : List Nat :=
  ((((((((u.set 0 ((t >>> 24) % 256)).set 1 ((t >>> 16) % 256)).set 2
      ((t >>> 8) % 256)).set 3 (t % 256)).set 4 ((t >>> 40) % 256)).set 5
      ((t >>> 32) % 256)).set 6 ((t >>> 56) % 256)).set 7 ((t >>> 48) % 256))

/-- `binary.BigEndian.PutUint16(uuid[8:], clockSeq)`: byte 8 receives the
high byte of the 16-bit clock sequence, byte 9 the low byte. -/
def putClockSeq (u : List Nat) (cs : Nat) : List Nat :=
  (u.set 8 ((cs >>> 8) % 256)).set 9 (cs % 256)

/-- `copy(uuid[10:], addr[:])` for the 6-byte hardware address. -/
def copyAddr (u : List Nat) (a : List Nat) : List Nat :=
  u.take 10 ++ a.take 6

/-- The zero-initialised `var uuid UUID`. -/
def zeroUUID : List Nat := List.replicate 16 0

/-- `NewV1`, parameterised by the timestamp value `t` returned by the
Gregorian time source, the prior shared clock sequence `cs` (a `uint16`)
and the 6-byte hardware address `a`; returns the UUID together with the
updated clock sequence (`clockSeq++` wraps modulo 2^16). -/
def NewV1 (t cs : Nat) (a : List Nat) : List Nat × Nat :=
  let u1 := insertTimestamp zeroUUID t
  let u2 := version u1 1
  let cs2 := (cs + 1) % 65536
  let u3 := putClockSeq u2 cs2
  let u4 := variant u3 rfc4122
  (copyAddr u4 a, cs2)

/-- `NewV2`: identical buffer construction to `NewV1` except that the
timestamp comes from the DCE source and the version stamped is 2. -/
def NewV2 (t cs : Nat) (a : List Nat) : List Nat × Nat :=
  let u1 := insertTimestamp zeroUUID t
  let u2 := version u1 2
  let cs2 := (cs + 1) % 65536
  let u3 := putClockSeq u2 cs2
  let u4 := variant u3 rfc4122
  (copyAddr u4 a, cs2)

/-- `copy(uuid[:], h.Sum(nil))`: copy a digest into the zeroed 16-byte
buffer, truncating at 16 bytes (SHA-1 yields 20, MD5 yields 16). -/
def copyDigest (d : List Nat) : List Nat :=
  d.take 16 ++ List.replicate (16 - d.length) 0

/-- `NewV3`.  The digest (Go's `crypto/md5`, outside this repository) is
a parameter `md5`; feeding `h.Write(namespace)` then `h.Write(name)`
hashes the concatenation, per the `hash.Hash` streaming contract. -/
def NewV3 (md5 : List Nat → List Nat) (ns name : List Nat) : List Nat :=
  variant (version (copyDigest (md5 (ns ++ name))) 3) rfc4122

/-- `NewV4`, parameterised by the random timestamp `t` and the 7 random
bytes `r` that `randomBytes(uuid[9:])` writes into bytes 9–15. -/
def NewV4 (t : Nat) (r : List Nat) : List Nat :=
  let u1 := insertTimestamp zeroUUID t
  let u2 := version u1 4
  let u3 := variant u2 rfc4122
  u3.take 9 ++ r.take 7

/-- `NewV5`.  The digest (Go's `crypto/sha1`, outside this repository)
is a parameter `sha1`; the two writes hash namespace ++ name. -/
def NewV5 (sha1 : List Nat → List Nat) (ns name : List Nat) : List Nat :=
  variant (version (copyDigest (sha1 (ns ++ name))) 5) rfc4122

/-! ### String codec -/

/-- One hex digit of Go's `encoding/hex` table `"0123456789abcdef"`. -/
def hexDigitChar (n : Nat) : Char :=
  if n < 10 then Char.ofNat (48 + n) else Char.ofNat (87 + n)

/-- `hex.EncodeToString` of one byte: high nibble then low nibble. -/
def byteToHex (b : Nat) : List Char :=
  [hexDigitChar (b / 16), hexDigitChar (b % 16)]

/-- `hex.EncodeToString` of a byte sequence. -/
def hexEncode (bs : List Nat) : List Char :=
  (bs.map byteToHex).flatten

/-- `String()`: `4-2-2-2-6` byte groups hex-encoded, hyphen separated. -/
def uuidStringChars (u : List Nat) : List Char :=
  hexEncode (u.take 4) ++ '-' ::
  (hexEncode ((u.drop 4).take 2) ++ '-' ::
  (hexEncode ((u.drop 6).take 2) ++ '-' ::
  (hexEncode ((u.drop 8).take 2) ++ '-' ::
  hexEncode ((u.drop 10).take 6))))

/-- Go's `encoding/hex.fromHexChar`: value of one hex digit, accepting
`0-9`, `a-f` and `A-F`. -/
def hexDigitVal (c : Char) : Option Nat :=
  if '0' ≤ c ∧ c ≤ '9' then some (c.toNat - 48)
  else if 'a' ≤ c ∧ c ≤ 'f' then some (c.toNat - 97 + 10)
  else if 'A' ≤ c ∧ c ≤ 'F' then some (c.toNat - 65 + 10)
  else none

/-- `hex.DecodeString`: decodes pairs of hex digits; fails on a non-hex
character or an odd-length input. -/
def hexDecode : List Char → Option (List Nat)
  | [] => some []
  | [_] => none
  | c1 :: c2 :: rest =>
    match hexDigitVal c1, hexDigitVal c2, hexDecode rest with
    | some hi, some lo, some tl => some ((hi * 16 + lo) :: tl)
    | _, _, _ => none

/-- Lower-case hex digit class `[0-9a-f]` of the validation regex. -/
def isHexLower (c : Char) : Bool :=
  ('0' ≤ c && c ≤ '9') || ('a' ≤ c && c ≤ 'f')

/-- Version digit class `[1-5]` of the validation regex. -/
def isVerDigit (c : Char) : Bool := '1' ≤ c && c ≤ '5'

/-- Variant digit class `[89ab]` of the validation regex. -/
def isVarDigit (c : Char) : Bool :=
  c == '8' || c == '9' || c == 'a' || c == 'b'

/-- The anchored regex
`^[0-9a-f]{8}-[0-9a-f]{4}-[1-5][0-9a-f]{3}-[89ab][0-9a-f]{3}-[0-9a-f]{12}$`:
exactly 36 characters, hyphens at positions 8, 13, 18 and 23, a version
digit at position 14, a variant digit at position 19, lower-case hex
everywhere else. -/
def uuidRegexMatch : List Char → Bool
  | ya1 :: ya2 :: ya3 :: ya4 :: ya5 :: ya6 :: ya7 :: ya8 :: yh1 ::
    yb1 :: yb2 :: yb3 :: yb4 :: yh2 ::
    yv :: yc1 :: yc2 :: yc3 :: yh3 ::
    yw :: ye1 :: ye2 :: ye3 :: yh4 ::
    yf1 :: yf2 :: yf3 :: yf4 :: yf5 :: yf6 :: yf7 :: yf8 :: yf9 ::
    yf10 :: yf11 :: [yf12] =>
    [ya1, ya2, ya3, ya4, ya5, ya6, ya7, ya8, yb1, yb2, yb3, yb4,
     yc1, yc2, yc3, ye1, ye2, ye3, yf1, yf2, yf3, yf4, yf5, yf6,
     yf7, yf8, yf9, yf10, yf11, yf12].all isHexLower &&
    yh1 == '-' && yh2 == '-' && yh3 == '-' && yh4 == '-' &&
    isVerDigit yv && isVarDigit yw
  | _ => false

/-- The error values `ErrUUIDSize` and `ErrUUIDFormat`, plus the error
propagated from `hex.DecodeString`. -/
inductive UUIDError
  | SizeError
  | FormatError
  | HexError
  deriving DecidableEq

/-- `FromBytes`: fails with the size error when the input is not 16
bytes, then copies and validates the re-rendered string against the
regex. -/
def FromBytes (b : List Nat) : Except UUIDError (List Nat) :=
  if b.length ≠ uuidSize then .error .SizeError
  else if uuidRegexMatch (uuidStringChars b) then .ok b
  else .error .FormatError

/-- `FromString`: `strings.Replace(s, "-", "", -1)` removes every
hyphen, then hex-decodes and defers to `FromBytes`. -/
def FromString (s : List Char) : Except UUIDError (List Nat) :=
  match hexDecode (s.filter (fun c => c != '-')) with
  | none => .error .HexError
  | some b => FromBytes b

/-! ### Timestamp source (timestamp.go) -/

/-- `epochOffset = 122192928000000000` (timestamp.go). -/
def epochOffset : Nat := 122192928000000000

/-- `getUUIDEpochTime`: `uint64((time.Now().UnixNano() + epochOffset) / 100)`,
parameterised by the current Unix-epoch time in nanoseconds (non-negative
for any time after 1970, so the `int64` arithmetic is ordinary). -/
def getUUIDEpochTime (nowNano : Nat) : Nat :=
  ((nowNano + epochOffset) / 100) % 2 ^ 64

/-- Modelled from the spec: "current time converted to 100-nanosecond
ticks since 1582-10-15T00:00:00Z (offset constant = 122192928000000000
in the same tick unit as Unix-epoch nanoseconds ÷ 100)" — i.e. the
Unix-epoch nanoseconds divided by 100, plus the offset in tick units. -/
def specGregorianTicks (nowNano : Nat) : Nat :=
  nowNano / 100 + epochOffset

/-! ### Helper lemmas -/

set_option maxRecDepth 8000

theorem byteAt_set_ne (u : List Nat) (i j x : Nat) (hij : i ≠ j) :
    byteAt (u.set i x) j = byteAt u j := by
  induction u generalizing i j with
  | nil => rfl
  | cons a t ih =>
    cases i with
    | zero =>
      cases j with
      | zero => exact absurd rfl hij
      | succ j => rfl
    | succ i =>
      cases j with
      | zero => rfl
      | succ j => exact ih i j (by omega)

theorem byteAt_set_eq (u : List Nat) (i x : Nat) (h : i < u.length) :
    byteAt (u.set i x) i = x := by
  induction u generalizing i with
  | nil => simp at h
  | cons a t ih =>
    cases i with
    | zero => rfl
    | succ i => exact ih i (by simpa using h)

theorem byteAt_6_of16 (x0 x1 x2 x3 x4 x5 x6 x7 x8 x9 x10 x11 x12 x13 x14 x15 : Nat) :
    byteAt [x0, x1, x2, x3, x4, x5, x6, x7, x8, x9, x10, x11, x12, x13, x14, x15] 6 = x6 := rfl

theorem byteAt_8_of16 (x0 x1 x2 x3 x4 x5 x6 x7 x8 x9 x10 x11 x12 x13 x14 x15 : Nat) :
    byteAt [x0, x1, x2, x3, x4, x5, x6, x7, x8, x9, x10, x11, x12, x13, x14, x15] 8 = x8 := rfl

theorem byteAt_9_of16 (x0 x1 x2 x3 x4 x5 x6 x7 x8 x9 x10 x11 x12 x13 x14 x15 : Nat) :
    byteAt [x0, x1, x2, x3, x4, x5, x6, x7, x8, x9, x10, x11, x12, x13, x14, x15] 9 = x9 := rfl

theorem hexDigitVal_hexDigitChar : ∀ x : Fin 16,
    hexDigitVal (hexDigitChar x.val) = some x.val := by decide

theorem isHexLower_hexDigitChar : ∀ x : Fin 16,
    isHexLower (hexDigitChar x.val) = true := by decide

theorem hexDigitChar_ne_dash : ∀ x : Fin 16,
    (hexDigitChar x.val != '-') = true := by decide

theorem isVerDigit_hexDigitChar : ∀ x : Fin 16,
    isVerDigit (hexDigitChar x.val) =
      (decide (1 ≤ x.val) && decide (x.val ≤ 5)) := by decide

theorem isVarDigit_hexDigitChar : ∀ x : Fin 16,
    isVarDigit (hexDigitChar x.val) =
      (decide (8 ≤ x.val) && decide (x.val ≤ 11)) := by decide

theorem varByte_facts : ∀ b : Fin 256,
    Nat.lor (Nat.land b.val 63) 128 / 64 = 2 ∧
    Nat.lor (Nat.land b.val 63) 128 % 64 = b.val % 64 ∧
    Nat.lor (Nat.land b.val 63) 128 < 256 ∧
    8 ≤ Nat.lor (Nat.land b.val 63) 128 / 16 ∧
    Nat.lor (Nat.land b.val 63) 128 / 16 ≤ 11 := by decide

theorem futByte_facts : ∀ b : Fin 256,
    Nat.lor (Nat.land b.val 31) 224 / 32 = 7 ∧
    Nat.lor (Nat.land b.val 31) 224 % 32 = b.val % 32 ∧
    Nat.lor (Nat.land b.val 31) 224 < 256 := by decide

theorem verByte_facts : ∀ v : Fin 16, ∀ b : Fin 256,
    Nat.lor (Nat.land b.val 15) (v.val * 16) / 16 = v.val ∧
    Nat.lor (Nat.land b.val 15) (v.val * 16) % 16 = b.val % 16 ∧
    Nat.lor (Nat.land b.val 15) (v.val * 16) < 256 := by decide

theorem varByte_stamp (b : Nat) (hb : b < 256) :
    Nat.lor (Nat.land b 63) 128 / 64 = 2 ∧
    Nat.lor (Nat.land b 63) 128 % 64 = b % 64 ∧
    Nat.lor (Nat.land b 63) 128 < 256 ∧
    8 ≤ Nat.lor (Nat.land b 63) 128 / 16 ∧
    Nat.lor (Nat.land b 63) 128 / 16 ≤ 11 :=
  varByte_facts ⟨b, hb⟩

theorem futByte_stamp (b : Nat) (hb : b < 256) :
    Nat.lor (Nat.land b 31) 224 / 32 = 7 ∧
    Nat.lor (Nat.land b 31) 224 % 32 = b % 32 ∧
    Nat.lor (Nat.land b 31) 224 < 256 :=
  futByte_facts ⟨b, hb⟩

theorem verByte_stamp (v b : Nat) (hv : v < 16) (hb : b < 256) :
    Nat.lor (Nat.land b 15) (v * 16) / 16 = v ∧
    Nat.lor (Nat.land b 15) (v * 16) % 16 = b % 16 ∧
    Nat.lor (Nat.land b 15) (v * 16) < 256 :=
  verByte_facts ⟨v, hv⟩ ⟨b, hb⟩

theorem isHexLower_hi (b : Nat) (hb : b < 256) :
    isHexLower (hexDigitChar (b / 16)) = true :=
  isHexLower_hexDigitChar ⟨b / 16, by omega⟩

theorem isHexLower_lo (b : Nat) :
    isHexLower (hexDigitChar (b % 16)) = true :=
  isHexLower_hexDigitChar ⟨b % 16, by omega⟩

theorem ne_dash_hi (b : Nat) (hb : b < 256) :
    (hexDigitChar (b / 16) != '-') = true :=
  hexDigitChar_ne_dash ⟨b / 16, by omega⟩

theorem ne_dash_lo (b : Nat) :
    (hexDigitChar (b % 16) != '-') = true :=
  hexDigitChar_ne_dash ⟨b % 16, by omega⟩

theorem isVerDigit_hi (b : Nat) (hb : b < 256) :
    isVerDigit (hexDigitChar (b / 16)) =
      (decide (1 ≤ b / 16) && decide (b / 16 ≤ 5)) :=
  isVerDigit_hexDigitChar ⟨b / 16, by omega⟩

theorem isVarDigit_hi (b : Nat) (hb : b < 256) :
    isVarDigit (hexDigitChar (b / 16)) =
      (decide (8 ≤ b / 16) && decide (b / 16 ≤ 11)) :=
  isVarDigit_hexDigitChar ⟨b / 16, by omega⟩

theorem hexDecode_byte (b : Nat) (hb : b < 256) (rest : List Char) :
    hexDecode (hexDigitChar (b / 16) :: hexDigitChar (b % 16) :: rest) =
      (hexDecode rest).map (fun tl => b :: tl) := by
  have h1 : hexDigitVal (hexDigitChar (b / 16)) = some (b / 16) :=
    hexDigitVal_hexDigitChar ⟨b / 16, by omega⟩
  have h2 : hexDigitVal (hexDigitChar (b % 16)) = some (b % 16) :=
    hexDigitVal_hexDigitChar ⟨b % 16, by omega⟩
  have hr : b / 16 * 16 + b % 16 = b := by omega
  cases hrest : hexDecode rest with
  | none => simp only [hexDecode]; rw [h1, h2, hrest]; rfl
  | some tl => simp only [hexDecode]; rw [h1, h2, hrest]; simp [hr]

theorem uuidStringChars16 (b0 b1 b2 b3 b4 b5 b6 b7 b8 b9 b10 b11 b12 b13 b14 b15 : Nat) :
    uuidStringChars [b0, b1, b2, b3, b4, b5, b6, b7, b8, b9, b10, b11, b12, b13, b14, b15] =
      hexDigitChar (b0 / 16) ::
      hexDigitChar (b0 % 16) ::
      hexDigitChar (b1 / 16) ::
      hexDigitChar (b1 % 16) ::
      hexDigitChar (b2 / 16) ::
      hexDigitChar (b2 % 16) ::
      hexDigitChar (b3 / 16) ::
      hexDigitChar (b3 % 16) ::
      '-' ::
      hexDigitChar (b4 / 16) ::
      hexDigitChar (b4 % 16) ::
      hexDigitChar (b5 / 16) ::
      hexDigitChar (b5 % 16) ::
      '-' ::
      hexDigitChar (b6 / 16) ::
      hexDigitChar (b6 % 16) ::
      hexDigitChar (b7 / 16) ::
      hexDigitChar (b7 % 16) ::
      '-' ::
      hexDigitChar (b8 / 16) ::
      hexDigitChar (b8 % 16) ::
      hexDigitChar (b9 / 16) ::
      hexDigitChar (b9 % 16) ::
      '-' ::
      hexDigitChar (b10 / 16) ::
      hexDigitChar (b10 % 16) ::
      hexDigitChar (b11 / 16) ::
      hexDigitChar (b11 % 16) ::
      hexDigitChar (b12 / 16) ::
      hexDigitChar (b12 % 16) ::
      hexDigitChar (b13 / 16) ::
      hexDigitChar (b13 % 16) ::
      hexDigitChar (b14 / 16) ::
      hexDigitChar (b14 % 16) ::
      hexDigitChar (b15 / 16) ::
      [hexDigitChar (b15 % 16)] := rfl

theorem filter16 (b0 b1 b2 b3 b4 b5 b6 b7 b8 b9 b10 b11 b12 b13 b14 b15 : Nat) (h0 : b0 < 256) (h1 : b1 < 256) (h2 : b2 < 256) (h3 : b3 < 256) (h4 : b4 < 256) (h5 : b5 < 256) (h6 : b6 < 256) (h7 : b7 < 256) (h8 : b8 < 256) (h9 : b9 < 256) (h10 : b10 < 256) (h11 : b11 < 256) (h12 : b12 < 256) (h13 : b13 < 256) (h14 : b14 < 256) (h15 : b15 < 256) :
    (uuidStringChars [b0, b1, b2, b3, b4, b5, b6, b7, b8, b9, b10, b11, b12, b13, b14, b15]).filter (fun c => c != '-') =
      [hexDigitChar (b0 / 16),
       hexDigitChar (b0 % 16),
       hexDigitChar (b1 / 16),
       hexDigitChar (b1 % 16),
       hexDigitChar (b2 / 16),
       hexDigitChar (b2 % 16),
       hexDigitChar (b3 / 16),
       hexDigitChar (b3 % 16),
       hexDigitChar (b4 / 16),
       hexDigitChar (b4 % 16),
       hexDigitChar (b5 / 16),
       hexDigitChar (b5 % 16),
       hexDigitChar (b6 / 16),
       hexDigitChar (b6 % 16),
       hexDigitChar (b7 / 16),
       hexDigitChar (b7 % 16),
       hexDigitChar (b8 / 16),
       hexDigitChar (b8 % 16),
       hexDigitChar (b9 / 16),
       hexDigitChar (b9 % 16),
       hexDigitChar (b10 / 16),
       hexDigitChar (b10 % 16),
       hexDigitChar (b11 / 16),
       hexDigitChar (b11 % 16),
       hexDigitChar (b12 / 16),
       hexDigitChar (b12 % 16),
       hexDigitChar (b13 / 16),
       hexDigitChar (b13 % 16),
       hexDigitChar (b14 / 16),
       hexDigitChar (b14 % 16),
       hexDigitChar (b15 / 16),
       hexDigitChar (b15 % 16)] := by
  rw [uuidStringChars16]
  simp only [List.filter_cons, List.filter_nil,
    ne_dash_hi b0 h0, ne_dash_lo b0, ne_dash_hi b1 h1, ne_dash_lo b1, ne_dash_hi b2 h2, ne_dash_lo b2, ne_dash_hi b3 h3, ne_dash_lo b3, ne_dash_hi b4 h4, ne_dash_lo b4, ne_dash_hi b5 h5, ne_dash_lo b5, ne_dash_hi b6 h6, ne_dash_lo b6, ne_dash_hi b7 h7, ne_dash_lo b7, ne_dash_hi b8 h8, ne_dash_lo b8, ne_dash_hi b9 h9, ne_dash_lo b9, ne_dash_hi b10 h10, ne_dash_lo b10, ne_dash_hi b11 h11, ne_dash_lo b11, ne_dash_hi b12 h12, ne_dash_lo b12, ne_dash_hi b13 h13, ne_dash_lo b13, ne_dash_hi b14 h14, ne_dash_lo b14, ne_dash_hi b15 h15, ne_dash_lo b15,
    bne_self_eq_false, if_true, if_false]
  simp

theorem hexDecode32 (b0 b1 b2 b3 b4 b5 b6 b7 b8 b9 b10 b11 b12 b13 b14 b15 : Nat) (h0 : b0 < 256) (h1 : b1 < 256) (h2 : b2 < 256) (h3 : b3 < 256) (h4 : b4 < 256) (h5 : b5 < 256) (h6 : b6 < 256) (h7 : b7 < 256) (h8 : b8 < 256) (h9 : b9 < 256) (h10 : b10 < 256) (h11 : b11 < 256) (h12 : b12 < 256) (h13 : b13 < 256) (h14 : b14 < 256) (h15 : b15 < 256) :
    hexDecode
      [hexDigitChar (b0 / 16),
       hexDigitChar (b0 % 16),
       hexDigitChar (b1 / 16),
       hexDigitChar (b1 % 16),
       hexDigitChar (b2 / 16),
       hexDigitChar (b2 % 16),
       hexDigitChar (b3 / 16),
       hexDigitChar (b3 % 16),
       hexDigitChar (b4 / 16),
       hexDigitChar (b4 % 16),
       hexDigitChar (b5 / 16),
       hexDigitChar (b5 % 16),
       hexDigitChar (b6 / 16),
       hexDigitChar (b6 % 16),
       hexDigitChar (b7 / 16),
       hexDigitChar (b7 % 16),
       hexDigitChar (b8 / 16),
       hexDigitChar (b8 % 16),
       hexDigitChar (b9 / 16),
       hexDigitChar (b9 % 16),
       hexDigitChar (b10 / 16),
       hexDigitChar (b10 % 16),
       hexDigitChar (b11 / 16),
       hexDigitChar (b11 % 16),
       hexDigitChar (b12 / 16),
       hexDigitChar (b12 % 16),
       hexDigitChar (b13 / 16),
       hexDigitChar (b13 % 16),
       hexDigitChar (b14 / 16),
       hexDigitChar (b14 % 16),
       hexDigitChar (b15 / 16),
       hexDigitChar (b15 % 16)] = some [b0, b1, b2, b3, b4, b5, b6, b7, b8, b9, b10, b11, b12, b13, b14, b15] := by
  rw [hexDecode_byte b0 h0, hexDecode_byte b1 h1, hexDecode_byte b2 h2, hexDecode_byte b3 h3, hexDecode_byte b4 h4, hexDecode_byte b5 h5, hexDecode_byte b6 h6, hexDecode_byte b7 h7, hexDecode_byte b8 h8, hexDecode_byte b9 h9, hexDecode_byte b10 h10, hexDecode_byte b11 h11, hexDecode_byte b12 h12, hexDecode_byte b13 h13, hexDecode_byte b14 h14, hexDecode_byte b15 h15]
  rfl

theorem regexMatch16 (b0 b1 b2 b3 b4 b5 b6 b7 b8 b9 b10 b11 b12 b13 b14 b15 : Nat) (h0 : b0 < 256) (h1 : b1 < 256) (h2 : b2 < 256) (h3 : b3 < 256) (h4 : b4 < 256) (h5 : b5 < 256) (h6 : b6 < 256) (h7 : b7 < 256) (h8 : b8 < 256) (h9 : b9 < 256) (h10 : b10 < 256) (h11 : b11 < 256) (h12 : b12 < 256) (h13 : b13 < 256) (h14 : b14 < 256) (h15 : b15 < 256) :
    uuidRegexMatch (uuidStringChars [b0, b1, b2, b3, b4, b5, b6, b7, b8, b9, b10, b11, b12, b13, b14, b15]) =
      ((decide (1 ≤ b6 / 16) && decide (b6 / 16 ≤ 5)) &&
       (decide (8 ≤ b8 / 16) && decide (b8 / 16 ≤ 11))) := by
  rw [uuidStringChars16]
  simp only [uuidRegexMatch, List.all_cons, List.all_nil,
    isHexLower_lo b0,
    isHexLower_hi b0 h0,
    isHexLower_lo b1,
    isHexLower_hi b1 h1,
    isHexLower_lo b2,
    isHexLower_hi b2 h2,
    isHexLower_lo b3,
    isHexLower_hi b3 h3,
    isHexLower_lo b4,
    isHexLower_hi b4 h4,
    isHexLower_lo b5,
    isHexLower_hi b5 h5,
    isHexLower_lo b6,
    isHexLower_lo b7,
    isHexLower_hi b7 h7,
    isHexLower_lo b8,
    isHexLower_lo b9,
    isHexLower_hi b9 h9,
    isHexLower_lo b10,
    isHexLower_hi b10 h10,
    isHexLower_lo b11,
    isHexLower_hi b11 h11,
    isHexLower_lo b12,
    isHexLower_hi b12 h12,
    isHexLower_lo b13,
    isHexLower_hi b13 h13,
    isHexLower_lo b14,
    isHexLower_hi b14 h14,
    isHexLower_lo b15,
    isHexLower_hi b15 h15,
    isVerDigit_hi b6 h6, isVarDigit_hi b8 h8, beq_self_eq_true,
    Bool.true_and, Bool.and_true]

theorem FromString_eq_of_decode (s : List Char) (b : List Nat)
    (h : hexDecode (s.filter (fun c => c != '-')) = some b) :
    FromString s = FromBytes b := by
  unfold FromString
  rw [h]

theorem FromString_eq_of_decode_fail (s : List Char)
    (h : hexDecode (s.filter (fun c => c != '-')) = none) :
    FromString s = .error .HexError := by
  unfold FromString
  rw [h]

theorem FromBytes16_ok (b0 b1 b2 b3 b4 b5 b6 b7 b8 b9 b10 b11 b12 b13 b14 b15 : Nat) (h0 : b0 < 256) (h1 : b1 < 256) (h2 : b2 < 256) (h3 : b3 < 256) (h4 : b4 < 256) (h5 : b5 < 256) (h6 : b6 < 256) (h7 : b7 < 256) (h8 : b8 < 256) (h9 : b9 < 256) (h10 : b10 < 256) (h11 : b11 < 256) (h12 : b12 < 256) (h13 : b13 < 256) (h14 : b14 < 256) (h15 : b15 < 256)
    (hv1 : 1 ≤ b6 / 16) (hv2 : b6 / 16 ≤ 5)
    (hw1 : 8 ≤ b8 / 16) (hw2 : b8 / 16 ≤ 11) :
    FromBytes [b0, b1, b2, b3, b4, b5, b6, b7, b8, b9, b10, b11, b12, b13, b14, b15] = .ok [b0, b1, b2, b3, b4, b5, b6, b7, b8, b9, b10, b11, b12, b13, b14, b15] := by
  unfold FromBytes
  rw [regexMatch16 b0 b1 b2 b3 b4 b5 b6 b7 b8 b9 b10 b11 b12 b13 b14 b15 h0 h1 h2 h3 h4 h5 h6 h7 h8 h9 h10 h11 h12 h13 h14 h15]
  simp [uuidSize, hv1, hv2, hw1, hw2]

theorem FromBytes16_fmt (b0 b1 b2 b3 b4 b5 b6 b7 b8 b9 b10 b11 b12 b13 b14 b15 : Nat) (h0 : b0 < 256) (h1 : b1 < 256) (h2 : b2 < 256) (h3 : b3 < 256) (h4 : b4 < 256) (h5 : b5 < 256) (h6 : b6 < 256) (h7 : b7 < 256) (h8 : b8 < 256) (h9 : b9 < 256) (h10 : b10 < 256) (h11 : b11 < 256) (h12 : b12 < 256) (h13 : b13 < 256) (h14 : b14 < 256) (h15 : b15 < 256)
    (hcond : ¬((1 ≤ b6 / 16 ∧ b6 / 16 ≤ 5) ∧ (8 ≤ b8 / 16 ∧ b8 / 16 ≤ 11))) :
    FromBytes [b0, b1, b2, b3, b4, b5, b6, b7, b8, b9, b10, b11, b12, b13, b14, b15] = .error .FormatError := by
  unfold FromBytes
  rw [regexMatch16 b0 b1 b2 b3 b4 b5 b6 b7 b8 b9 b10 b11 b12 b13 b14 b15 h0 h1 h2 h3 h4 h5 h6 h7 h8 h9 h10 h11 h12 h13 h14 h15]
  simp only [uuidSize, Bool.and_eq_true, decide_eq_true_eq]
  rw [if_neg (by simp), if_neg (by tauto)]

theorem roundtrip16 (b0 b1 b2 b3 b4 b5 b6 b7 b8 b9 b10 b11 b12 b13 b14 b15 : Nat) (h0 : b0 < 256) (h1 : b1 < 256) (h2 : b2 < 256) (h3 : b3 < 256) (h4 : b4 < 256) (h5 : b5 < 256) (h6 : b6 < 256) (h7 : b7 < 256) (h8 : b8 < 256) (h9 : b9 < 256) (h10 : b10 < 256) (h11 : b11 < 256) (h12 : b12 < 256) (h13 : b13 < 256) (h14 : b14 < 256) (h15 : b15 < 256)
    (hv1 : 1 ≤ b6 / 16) (hv2 : b6 / 16 ≤ 5)
    (hw1 : 8 ≤ b8 / 16) (hw2 : b8 / 16 ≤ 11) :
    FromString (uuidStringChars [b0, b1, b2, b3, b4, b5, b6, b7, b8, b9, b10, b11, b12, b13, b14, b15]) = .ok [b0, b1, b2, b3, b4, b5, b6, b7, b8, b9, b10, b11, b12, b13, b14, b15] := by
  rw [FromString_eq_of_decode _ [b0, b1, b2, b3, b4, b5, b6, b7, b8, b9, b10, b11, b12, b13, b14, b15] ?_]
  · exact FromBytes16_ok b0 b1 b2 b3 b4 b5 b6 b7 b8 b9 b10 b11 b12 b13 b14 b15 h0 h1 h2 h3 h4 h5 h6 h7 h8 h9 h10 h11 h12 h13 h14 h15 hv1 hv2 hw1 hw2
  · rw [filter16 b0 b1 b2 b3 b4 b5 b6 b7 b8 b9 b10 b11 b12 b13 b14 b15 h0 h1 h2 h3 h4 h5 h6 h7 h8 h9 h10 h11 h12 h13 h14 h15]
    exact hexDecode32 b0 b1 b2 b3 b4 b5 b6 b7 b8 b9 b10 b11 b12 b13 b14 b15 h0 h1 h2 h3 h4 h5 h6 h7 h8 h9 h10 h11 h12 h13 h14 h15

theorem exists_cons_of_length {α : Type} {n : Nat} (l : List α)
    (h : l.length = n + 1) : ∃ a t, l = a :: t ∧ t.length = n := by
  cases l with
  | nil => simp at h
  | cons a t => exact ⟨a, t, rfl, by simpa using h⟩

theorem NewV1_eq (t cs a0 a1 a2 a3 a4 a5 : Nat) :
    NewV1 t cs [a0, a1, a2, a3, a4, a5] =
      ([(t >>> 24) % 256, (t >>> 16) % 256, (t >>> 8) % 256, t % 256,
        (t >>> 40) % 256, (t >>> 32) % 256,
        Nat.lor (Nat.land ((t >>> 56) % 256) 15) 16, (t >>> 48) % 256,
        Nat.lor (Nat.land ((((cs + 1) % 65536) >>> 8) % 256) 63) 128,
        ((cs + 1) % 65536) % 256, a0, a1, a2, a3, a4, a5],
       (cs + 1) % 65536) := rfl

theorem NewV2_eq (t cs a0 a1 a2 a3 a4 a5 : Nat) :
    NewV2 t cs [a0, a1, a2, a3, a4, a5] =
      ([(t >>> 24) % 256, (t >>> 16) % 256, (t >>> 8) % 256, t % 256,
        (t >>> 40) % 256, (t >>> 32) % 256,
        Nat.lor (Nat.land ((t >>> 56) % 256) 15) 32, (t >>> 48) % 256,
        Nat.lor (Nat.land ((((cs + 1) % 65536) >>> 8) % 256) 63) 128,
        ((cs + 1) % 65536) % 256, a0, a1, a2, a3, a4, a5],
       (cs + 1) % 65536) := rfl

theorem NewV4_eq (t r0 r1 r2 r3 r4 r5 r6 : Nat) :
    NewV4 t [r0, r1, r2, r3, r4, r5, r6] =
      [(t >>> 24) % 256, (t >>> 16) % 256, (t >>> 8) % 256, t % 256,
       (t >>> 40) % 256, (t >>> 32) % 256,
       Nat.lor (Nat.land ((t >>> 56) % 256) 15) 64, (t >>> 48) % 256,
       Nat.lor (Nat.land 0 63) 128, r0, r1, r2, r3, r4, r5, r6] := rfl

theorem NewV3_eq (md5 : List Nat → List Nat) (ns name : List Nat)
    (d0 d1 d2 d3 d4 d5 d6 d7 d8 d9 d10 d11 d12 d13 d14 d15 : Nat)
    (hd : md5 (ns ++ name) = [d0, d1, d2, d3, d4, d5, d6, d7, d8, d9,
      d10, d11, d12, d13, d14, d15]) :
    NewV3 md5 ns name =
      [d0, d1, d2, d3, d4, d5, Nat.lor (Nat.land d6 15) 48, d7,
       Nat.lor (Nat.land d8 63) 128, d9, d10, d11, d12, d13, d14,
       d15] := by
  unfold NewV3
  rw [hd]
  rfl

theorem NewV5_eq (sha1 : List Nat → List Nat) (ns name : List Nat)
    (d0 d1 d2 d3 d4 d5 d6 d7 d8 d9 d10 d11 d12 d13 d14 d15 d16 d17 d18
      d19 : Nat)
    (hd : sha1 (ns ++ name) = [d0, d1, d2, d3, d4, d5, d6, d7, d8, d9,
      d10, d11, d12, d13, d14, d15, d16, d17, d18, d19]) :
    NewV5 sha1 ns name =
      [d0, d1, d2, d3, d4, d5, Nat.lor (Nat.land d6 15) 80, d7,
       Nat.lor (Nat.land d8 63) 128, d9, d10, d11, d12, d13, d14,
       d15] := by
  unfold NewV5
  rw [hd]
  rfl

theorem verByte_lit_1 (b : Nat) (hb : b < 256) :
    Nat.lor (Nat.land b 15) 16 / 16 = 1 ∧
    Nat.lor (Nat.land b 15) 16 % 16 = b % 16 ∧
    Nat.lor (Nat.land b 15) 16 < 256 :=
  verByte_stamp 1 b (by omega) hb

theorem verByte_lit_2 (b : Nat) (hb : b < 256) :
    Nat.lor (Nat.land b 15) 32 / 16 = 2 ∧
    Nat.lor (Nat.land b 15) 32 % 16 = b % 16 ∧
    Nat.lor (Nat.land b 15) 32 < 256 :=
  verByte_stamp 2 b (by omega) hb

theorem verByte_lit_3 (b : Nat) (hb : b < 256) :
    Nat.lor (Nat.land b 15) 48 / 16 = 3 ∧
    Nat.lor (Nat.land b 15) 48 % 16 = b % 16 ∧
    Nat.lor (Nat.land b 15) 48 < 256 :=
  verByte_stamp 3 b (by omega) hb

theorem verByte_lit_4 (b : Nat) (hb : b < 256) :
    Nat.lor (Nat.land b 15) 64 / 16 = 4 ∧
    Nat.lor (Nat.land b 15) 64 % 16 = b % 16 ∧
    Nat.lor (Nat.land b 15) 64 < 256 :=
  verByte_stamp 4 b (by omega) hb

theorem verByte_lit_5 (b : Nat) (hb : b < 256) :
    Nat.lor (Nat.land b 15) 80 / 16 = 5 ∧
    Nat.lor (Nat.land b 15) 80 % 16 = b % 16 ∧
    Nat.lor (Nat.land b 15) 80 < 256 :=
  verByte_stamp 5 b (by omega) hb

theorem exists16_of_length (l : List Nat) (h : l.length = 16) :
    ∃ d0 d1 d2 d3 d4 d5 d6 d7 d8 d9 d10 d11 d12 d13 d14 d15,
      l = [d0, d1, d2, d3, d4, d5, d6, d7, d8, d9, d10, d11, d12, d13, d14, d15] := by
  obtain ⟨d0, D1, e0, l1⟩ := exists_cons_of_length _ h
  obtain ⟨d1, D2, e1, l2⟩ := exists_cons_of_length _ l1
  obtain ⟨d2, D3, e2, l3⟩ := exists_cons_of_length _ l2
  obtain ⟨d3, D4, e3, l4⟩ := exists_cons_of_length _ l3
  obtain ⟨d4, D5, e4, l5⟩ := exists_cons_of_length _ l4
  obtain ⟨d5, D6, e5, l6⟩ := exists_cons_of_length _ l5
  obtain ⟨d6, D7, e6, l7⟩ := exists_cons_of_length _ l6
  obtain ⟨d7, D8, e7, l8⟩ := exists_cons_of_length _ l7
  obtain ⟨d8, D9, e8, l9⟩ := exists_cons_of_length _ l8
  obtain ⟨d9, D10, e9, l10⟩ := exists_cons_of_length _ l9
  obtain ⟨d10, D11, e10, l11⟩ := exists_cons_of_length _ l10
  obtain ⟨d11, D12, e11, l12⟩ := exists_cons_of_length _ l11
  obtain ⟨d12, D13, e12, l13⟩ := exists_cons_of_length _ l12
  obtain ⟨d13, D14, e13, l14⟩ := exists_cons_of_length _ l13
  obtain ⟨d14, D15, e14, l15⟩ := exists_cons_of_length _ l14
  obtain ⟨d15, D16, e15, l16⟩ := exists_cons_of_length _ l15
  refine ⟨d0, d1, d2, d3, d4, d5, d6, d7, d8, d9, d10, d11, d12, d13, d14, d15, ?_⟩
  rw [e0, e1, e2, e3, e4, e5, e6, e7, e8, e9, e10, e11, e12, e13, e14, e15, List.length_eq_zero.mp l16]

theorem exists20_of_length (l : List Nat) (h : l.length = 20) :
    ∃ d0 d1 d2 d3 d4 d5 d6 d7 d8 d9 d10 d11 d12 d13 d14 d15 d16 d17 d18 d19,
      l = [d0, d1, d2, d3, d4, d5, d6, d7, d8, d9, d10, d11, d12, d13, d14, d15, d16, d17, d18, d19] := by
  obtain ⟨d0, D1, e0, l1⟩ := exists_cons_of_length _ h
  obtain ⟨d1, D2, e1, l2⟩ := exists_cons_of_length _ l1
  obtain ⟨d2, D3, e2, l3⟩ := exists_cons_of_length _ l2
  obtain ⟨d3, D4, e3, l4⟩ := exists_cons_of_length _ l3
  obtain ⟨d4, D5, e4, l5⟩ := exists_cons_of_length _ l4
  obtain ⟨d5, D6, e5, l6⟩ := exists_cons_of_length _ l5
  obtain ⟨d6, D7, e6, l7⟩ := exists_cons_of_length _ l6
  obtain ⟨d7, D8, e7, l8⟩ := exists_cons_of_length _ l7
  obtain ⟨d8, D9, e8, l9⟩ := exists_cons_of_length _ l8
  obtain ⟨d9, D10, e9, l10⟩ := exists_cons_of_length _ l9
  obtain ⟨d10, D11, e10, l11⟩ := exists_cons_of_length _ l10
  obtain ⟨d11, D12, e11, l12⟩ := exists_cons_of_length _ l11
  obtain ⟨d12, D13, e12, l13⟩ := exists_cons_of_length _ l12
  obtain ⟨d13, D14, e13, l14⟩ := exists_cons_of_length _ l13
  obtain ⟨d14, D15, e14, l15⟩ := exists_cons_of_length _ l14
  obtain ⟨d15, D16, e15, l16⟩ := exists_cons_of_length _ l15
  obtain ⟨d16, D17, e16, l17⟩ := exists_cons_of_length _ l16
  obtain ⟨d17, D18, e17, l18⟩ := exists_cons_of_length _ l17
  obtain ⟨d18, D19, e18, l19⟩ := exists_cons_of_length _ l18
  obtain ⟨d19, D20, e19, l20⟩ := exists_cons_of_length _ l19
  refine ⟨d0, d1, d2, d3, d4, d5, d6, d7, d8, d9, d10, d11, d12, d13, d14, d15, d16, d17, d18, d19, ?_⟩
  rw [e0, e1, e2, e3, e4, e5, e6, e7, e8, e9, e10, e11, e12, e13, e14, e15, e16, e17, e18, e19, List.length_eq_zero.mp l20]

theorem copyDigest_len16 (d : List Nat) (h : d.length = 16) :
    copyDigest d = d := by
  obtain ⟨d0, d1, d2, d3, d4, d5, d6, d7, d8, d9, d10, d11, d12, d13, d14, d15, rfl⟩ := exists16_of_length d h
  rfl

theorem copyDigest_len20 (d : List Nat) (h : d.length = 20) :
    copyDigest d = d.take 16 := by
  obtain ⟨d0, d1, d2, d3, d4, d5, d6, d7, d8, d9, d10, d11, d12, d13, d14, d15, d16, d17, d18, d19, rfl⟩ := exists20_of_length d h
  rfl

/-- C1: stamping the RFC4122 variant on a buffer performs one masked
update of byte 8: the result's top two bits are `10` and its low six
bits are those of the prior byte, all other bytes untouched; stamping
the reserved-for-future variant yields top three bits `111` with the
low five bits preserved. -/
theorem C1_variant_stamp (u : List Nat) (b : Nat) (hl : u.length = 16)
    (hb : byteAt u 8 = b) (h256 : b < 256) :
    (byteAt (variant u rfc4122) 8 / 64 = 2 ∧
     byteAt (variant u rfc4122) 8 % 64 = b % 64 ∧
     ∀ i, i ≠ 8 → byteAt (variant u rfc4122) i = byteAt u i) ∧
    (byteAt (variant u future) 8 / 32 = 7 ∧
     byteAt (variant u future) 8 % 32 = b % 32 ∧
     ∀ i, i ≠ 8 → byteAt (variant u future) i = byteAt u i) := by
  have hm1 : variant u rfc4122 = u.set 8 (Nat.lor (Nat.land b 63) 128) := by
    have e : ((4 : Nat) <<< 5) % 256 = 128 := rfl
    simp [variant, rfc4122, future, hb, e]
  have hm2 : variant u future = u.set 8 (Nat.lor (Nat.land b 31) 224) := by
    have e : ((7 : Nat) <<< 5) % 256 = 224 := rfl
    simp [variant, rfc4122, future, hb, e]
  refine ⟨⟨?_, ?_, ?_⟩, ⟨?_, ?_, ?_⟩⟩
  · rw [hm1, byteAt_set_eq _ _ _ (by omega)]
    exact (varByte_stamp b h256).1
  · rw [hm1, byteAt_set_eq _ _ _ (by omega)]
    exact (varByte_stamp b h256).2.1
  · intro i hi
    rw [hm1, byteAt_set_ne _ _ _ _ (by omega)]
  · rw [hm2, byteAt_set_eq _ _ _ (by omega)]
    exact (futByte_stamp b h256).1
  · rw [hm2, byteAt_set_eq _ _ _ (by omega)]
    exact (futByte_stamp b h256).2.1
  · intro i hi
    rw [hm2, byteAt_set_ne _ _ _ _ (by omega)]

theorem C1_variant_stamp_witness :
    byteAt (variant zeroUUID rfc4122) 8 / 64 = 2 ∧
    byteAt (variant zeroUUID future) 8 / 32 = 7 :=
  ⟨(C1_variant_stamp zeroUUID 0 rfl rfl (by omega)).1.1,
   (C1_variant_stamp zeroUUID 0 rfl rfl (by omega)).2.1⟩

/-- C2: stamping version `v ∈ {1..5}` sets the top nibble of byte 6 to
`v`, preserves its bottom nibble, and modifies no other byte. -/
theorem C2_version_stamp (u : List Nat) (v : Nat) (hl : u.length = 16)
    (hb : byteAt u 6 < 256) (hv1 : 1 ≤ v) (hv2 : v ≤ 5) :
    byteAt (version u v) 6 / 16 = v ∧
    byteAt (version u v) 6 % 16 = byteAt u 6 % 16 ∧
    ∀ i, i ≠ 6 → byteAt (version u v) i = byteAt u i := by
  have e : (v <<< 4) % 256 = v * 16 := by
    rw [Nat.shiftLeft_eq]
    have e2 : v * 2 ^ 4 = v * 16 := by norm_num
    rw [e2, Nat.mod_eq_of_lt (by omega)]
  have hm : version u v =
      u.set 6 (Nat.lor (Nat.land (byteAt u 6) 15) (v * 16)) := by
    unfold version
    rw [e]
  refine ⟨?_, ?_, ?_⟩
  · rw [hm, byteAt_set_eq _ _ _ (by omega)]
    exact (verByte_stamp v _ (by omega) hb).1
  · rw [hm, byteAt_set_eq _ _ _ (by omega)]
    exact (verByte_stamp v _ (by omega) hb).2.1
  · intro i hi
    rw [hm, byteAt_set_ne _ _ _ _ (by omega)]

theorem C2_version_stamp_witness :
    byteAt (version zeroUUID 4) 6 / 16 = 4 ∧
    byteAt (version zeroUUID 4) 6 % 16 = byteAt zeroUUID 6 % 16 :=
  ⟨(C2_version_stamp zeroUUID 4 rfl (by decide) (by omega) (by omega)).1,
   (C2_version_stamp zeroUUID 4 rfl (by decide) (by omega) (by omega)).2.1⟩

/-- C5: the Gregorian source computes
`uint64((UnixNano + epochOffset) / 100)`, which at Unix time 0
(1970-01-01T00:00:00Z) yields 1221929280000000 — not the spec's count of
100-ns ticks since 1582-10-15 (offset added in tick units), which is
122192928000000000: the code adds the tick-unit constant to a value in
nanoseconds before dividing, contradicting its own doc comment. -/
theorem C5_gregorian_bug :
    getUUIDEpochTime 0 = 1221929280000000 ∧
    specGregorianTicks 0 = 122192928000000000 ∧
    getUUIDEpochTime 0 ≠ specGregorianTicks 0 := by
  refine ⟨rfl, rfl, by decide⟩

/-- C3: every constructor output carries the requested version (in
{1..5}) in the top nibble of byte 6 and the RFC4122 variant pattern
`10` in the top two bits of byte 8; for v1/v2 these variant bits stand
because the variant is stamped after the clock sequence is written. -/
theorem C3_constructor_invariants :
    (∀ t cs a0 a1 a2 a3 a4 a5 : Nat,
      byteAt (NewV1 t cs [a0, a1, a2, a3, a4, a5]).1 6 / 16 = 1 ∧
      byteAt (NewV1 t cs [a0, a1, a2, a3, a4, a5]).1 8 / 64 = 2) ∧
    (∀ t cs a0 a1 a2 a3 a4 a5 : Nat,
      byteAt (NewV2 t cs [a0, a1, a2, a3, a4, a5]).1 6 / 16 = 2 ∧
      byteAt (NewV2 t cs [a0, a1, a2, a3, a4, a5]).1 8 / 64 = 2) ∧
    (∀ (md5 : List Nat → List Nat) (ns name : List Nat),
      (md5 (ns ++ name)).length = 16 →
      (∀ x ∈ md5 (ns ++ name), x < 256) →
      byteAt (NewV3 md5 ns name) 6 / 16 = 3 ∧
      byteAt (NewV3 md5 ns name) 8 / 64 = 2) ∧
    (∀ t r0 r1 r2 r3 r4 r5 r6 : Nat,
      byteAt (NewV4 t [r0, r1, r2, r3, r4, r5, r6]) 6 / 16 = 4 ∧
      byteAt (NewV4 t [r0, r1, r2, r3, r4, r5, r6]) 8 / 64 = 2) ∧
    (∀ (sha1 : List Nat → List Nat) (ns name : List Nat),
      (sha1 (ns ++ name)).length = 20 →
      (∀ x ∈ sha1 (ns ++ name), x < 256) →
      byteAt (NewV5 sha1 ns name) 6 / 16 = 5 ∧
      byteAt (NewV5 sha1 ns name) 8 / 64 = 2) := by
  refine ⟨?_, ?_, ?_, ?_, ?_⟩
  · intro t cs a0 a1 a2 a3 a4 a5
    rw [NewV1_eq]
    exact ⟨(verByte_lit_1 _ (Nat.mod_lt _ (by omega))).1,
           (varByte_stamp _ (Nat.mod_lt _ (by omega))).1⟩
  · intro t cs a0 a1 a2 a3 a4 a5
    rw [NewV2_eq]
    exact ⟨(verByte_lit_2 _ (Nat.mod_lt _ (by omega))).1,
           (varByte_stamp _ (Nat.mod_lt _ (by omega))).1⟩
  · intro md5 ns name hlen hbnd
    obtain ⟨d0, d1, d2, d3, d4, d5, d6, d7, d8, d9, d10, d11, d12, d13, d14, d15, hd⟩ := exists16_of_length _ hlen
    rw [NewV3_eq md5 ns name d0 d1 d2 d3 d4 d5 d6 d7 d8 d9 d10 d11 d12 d13 d14 d15 hd]
    exact ⟨(verByte_lit_3 d6 (hbnd d6 (by rw [hd]; simp))).1,
           (varByte_stamp d8 (hbnd d8 (by rw [hd]; simp))).1⟩
  · intro t r0 r1 r2 r3 r4 r5 r6
    rw [NewV4_eq, byteAt_6_of16, byteAt_8_of16]
    exact ⟨(verByte_lit_4 _ (Nat.mod_lt _ (by omega))).1,
           (varByte_stamp 0 (by omega)).1⟩
  · intro sha1 ns name hlen hbnd
    obtain ⟨d0, d1, d2, d3, d4, d5, d6, d7, d8, d9, d10, d11, d12, d13, d14, d15, d16, d17, d18, d19, hd⟩ := exists20_of_length _ hlen
    rw [NewV5_eq sha1 ns name d0 d1 d2 d3 d4 d5 d6 d7 d8 d9 d10 d11 d12 d13 d14 d15 d16 d17 d18 d19 hd]
    exact ⟨(verByte_lit_5 d6 (hbnd d6 (by rw [hd]; simp))).1,
           (varByte_stamp d8 (hbnd d8 (by rw [hd]; simp))).1⟩

theorem C3_constructor_invariants_witness :
    byteAt (NewV3 (fun _ => List.replicate 16 0) [] []) 6 / 16 = 3 ∧
    byteAt (NewV5 (fun _ => List.replicate 20 0) [] []) 8 / 64 = 2 :=
  ⟨(C3_constructor_invariants.2.2.1 (fun _ => List.replicate 16 0) [] []
      (by simp)
      (fun x hx => by rw [List.eq_of_mem_replicate hx]; omega)).1,
   (C3_constructor_invariants.2.2.2.2 (fun _ => List.replicate 20 0) [] []
      (by simp)
      (fun x hx => by rw [List.eq_of_mem_replicate hx]; omega)).2⟩

/-- C9: each v1/v2 call increments the shared 16-bit clock sequence by
one modulo 2^16 and the incremented value is written big-endian into
bytes 8–9 before the variant stamp, so byte 9 and the low six bits of
byte 8 of the result carry the new value while the top two bits of byte
8 hold the variant pattern. -/
theorem C9_clockseq (t cs a0 a1 a2 a3 a4 a5 : Nat) (hcs : cs < 65536) :
    ((NewV1 t cs [a0, a1, a2, a3, a4, a5]).2 = (cs + 1) % 65536 ∧
     byteAt (NewV1 t cs [a0, a1, a2, a3, a4, a5]).1 9 =
       ((cs + 1) % 65536) % 256 ∧
     byteAt (NewV1 t cs [a0, a1, a2, a3, a4, a5]).1 8 % 64 =
       (((cs + 1) % 65536) >>> 8) % 64 ∧
     byteAt (NewV1 t cs [a0, a1, a2, a3, a4, a5]).1 8 / 64 = 2) ∧
    ((NewV2 t cs [a0, a1, a2, a3, a4, a5]).2 = (cs + 1) % 65536 ∧
     byteAt (NewV2 t cs [a0, a1, a2, a3, a4, a5]).1 9 =
       ((cs + 1) % 65536) % 256 ∧
     byteAt (NewV2 t cs [a0, a1, a2, a3, a4, a5]).1 8 % 64 =
       (((cs + 1) % 65536) >>> 8) % 64 ∧
     byteAt (NewV2 t cs [a0, a1, a2, a3, a4, a5]).1 8 / 64 = 2) := by
  have hx : (((cs + 1) % 65536) >>> 8) % 256 < 256 := Nat.mod_lt _ (by omega)
  have h64 := (varByte_stamp ((((cs + 1) % 65536) >>> 8) % 256) hx).2.1
  have hdd : ((((cs + 1) % 65536) >>> 8) % 256) % 64 =
      (((cs + 1) % 65536) >>> 8) % 64 := Nat.mod_mod_of_dvd _ (by norm_num)
  refine ⟨⟨rfl, rfl, ?_, ?_⟩, ⟨rfl, rfl, ?_, ?_⟩⟩
  · rw [NewV1_eq]
    show Nat.lor (Nat.land ((((cs + 1) % 65536) >>> 8) % 256) 63) 128 % 64 =
      (((cs + 1) % 65536) >>> 8) % 64
    rw [h64, hdd]
  · rw [NewV1_eq]
    exact (varByte_stamp _ hx).1
  · rw [NewV2_eq]
    show Nat.lor (Nat.land ((((cs + 1) % 65536) >>> 8) % 256) 63) 128 % 64 =
      (((cs + 1) % 65536) >>> 8) % 64
    rw [h64, hdd]
  · rw [NewV2_eq]
    exact (varByte_stamp _ hx).1

theorem C9_clockseq_witness :
    (NewV1 0 0 [0, 0, 0, 0, 0, 0]).2 = (0 + 1) % 65536 ∧
    (NewV2 0 65535 [0, 0, 0, 0, 0, 0]).2 = (65535 + 1) % 65536 :=
  ⟨(C9_clockseq 0 0 0 0 0 0 0 0 (by omega)).1.1,
   (C9_clockseq 0 65535 0 0 0 0 0 0 (by omega)).2.1⟩

/-- C6: v3 is the MD5 digest of namespace ++ name with version 3 and the
RFC4122 variant stamped over it; v5 keeps only the first 16 of SHA-1's
20 digest bytes before the same stamping; both are pure functions of
(namespace, name, digest algorithm). -/
theorem C6_hash_based (md5 sha1 : List Nat → List Nat)
    (ns name : List Nat)
    (h3 : (md5 (ns ++ name)).length = 16)
    (h5 : (sha1 (ns ++ name)).length = 20) :
    NewV3 md5 ns name = variant (version (md5 (ns ++ name)) 3) rfc4122 ∧
    NewV5 sha1 ns name =
      variant (version ((sha1 (ns ++ name)).take 16) 5) rfc4122 ∧
    NewV3 md5 ns name = NewV3 md5 ns name ∧
    NewV5 sha1 ns name = NewV5 sha1 ns name := by
  refine ⟨?_, ?_, rfl, rfl⟩
  · unfold NewV3
    rw [copyDigest_len16 _ h3]
  · unfold NewV5
    rw [copyDigest_len20 _ h5]

theorem C6_hash_based_witness :
    NewV3 (fun _ => List.replicate 16 0) [] [] =
      variant (version ((fun _ => List.replicate 16 0)
        (([] : List Nat) ++ [])) 3) rfc4122 :=
  (C6_hash_based (fun _ => List.replicate 16 0)
    (fun _ => List.replicate 20 0) [] [] (by simp) (by simp)).1

theorem div16_between (x k : Nat) (h : x / 16 = k) (h1 : 1 ≤ k)
    (h5 : k ≤ 5) : 1 ≤ x / 16 ∧ x / 16 ≤ 5 := by
  rw [h]
  exact ⟨h1, h5⟩

/-- C4: parsing the canonical string rendering of any constructor output
succeeds and returns the same 16 bytes. -/
theorem C4_roundtrip :
    (∀ t cs a0 a1 a2 a3 a4 a5 : Nat,
      a0 < 256 → a1 < 256 → a2 < 256 → a3 < 256 → a4 < 256 → a5 < 256 →
      FromString (uuidStringChars (NewV1 t cs [a0, a1, a2, a3, a4, a5]).1) =
        .ok (NewV1 t cs [a0, a1, a2, a3, a4, a5]).1) ∧
    (∀ t cs a0 a1 a2 a3 a4 a5 : Nat,
      a0 < 256 → a1 < 256 → a2 < 256 → a3 < 256 → a4 < 256 → a5 < 256 →
      FromString (uuidStringChars (NewV2 t cs [a0, a1, a2, a3, a4, a5]).1) =
        .ok (NewV2 t cs [a0, a1, a2, a3, a4, a5]).1) ∧
    (∀ (md5 : List Nat → List Nat) (ns name : List Nat),
      (md5 (ns ++ name)).length = 16 →
      (∀ x ∈ md5 (ns ++ name), x < 256) →
      FromString (uuidStringChars (NewV3 md5 ns name)) =
        .ok (NewV3 md5 ns name)) ∧
    (∀ t r0 r1 r2 r3 r4 r5 r6 : Nat,
      r0 < 256 → r1 < 256 → r2 < 256 → r3 < 256 → r4 < 256 → r5 < 256 →
      r6 < 256 →
      FromString (uuidStringChars (NewV4 t [r0, r1, r2, r3, r4, r5, r6])) =
        .ok (NewV4 t [r0, r1, r2, r3, r4, r5, r6])) ∧
    (∀ (sha1 : List Nat → List Nat) (ns name : List Nat),
      (sha1 (ns ++ name)).length = 20 →
      (∀ x ∈ sha1 (ns ++ name), x < 256) →
      FromString (uuidStringChars (NewV5 sha1 ns name)) =
        .ok (NewV5 sha1 ns name)) := by
  refine ⟨?_, ?_, ?_, ?_, ?_⟩
  · intro t cs a0 a1 a2 a3 a4 a5 ha0 ha1 ha2 ha3 ha4 ha5
    rw [NewV1_eq]
    have hb6 := verByte_lit_1 ((t >>> 56) % 256) (Nat.mod_lt _ (by omega))
    have hb8 := varByte_stamp ((((cs + 1) % 65536) >>> 8) % 256) (Nat.mod_lt _ (by omega))
    have hv := div16_between _ _ hb6.1 (by omega) (by omega)
    exact roundtrip16 _ _ _ _ _ _ _ _ _ _ _ _ _ _ _ _
      (Nat.mod_lt _ (by omega)) (Nat.mod_lt _ (by omega)) (Nat.mod_lt _ (by omega)) (Nat.mod_lt _ (by omega)) (Nat.mod_lt _ (by omega)) (Nat.mod_lt _ (by omega))
      hb6.2.2 (Nat.mod_lt _ (by omega)) hb8.2.2.1 (Nat.mod_lt _ (by omega))
      ha0 ha1 ha2 ha3 ha4 ha5
      hv.1 hv.2 hb8.2.2.2.1 hb8.2.2.2.2
  · intro t cs a0 a1 a2 a3 a4 a5 ha0 ha1 ha2 ha3 ha4 ha5
    rw [NewV2_eq]
    have hb6 := verByte_lit_2 ((t >>> 56) % 256) (Nat.mod_lt _ (by omega))
    have hb8 := varByte_stamp ((((cs + 1) % 65536) >>> 8) % 256) (Nat.mod_lt _ (by omega))
    have hv := div16_between _ _ hb6.1 (by omega) (by omega)
    exact roundtrip16 _ _ _ _ _ _ _ _ _ _ _ _ _ _ _ _
      (Nat.mod_lt _ (by omega)) (Nat.mod_lt _ (by omega)) (Nat.mod_lt _ (by omega)) (Nat.mod_lt _ (by omega)) (Nat.mod_lt _ (by omega)) (Nat.mod_lt _ (by omega))
      hb6.2.2 (Nat.mod_lt _ (by omega)) hb8.2.2.1 (Nat.mod_lt _ (by omega))
      ha0 ha1 ha2 ha3 ha4 ha5
      hv.1 hv.2 hb8.2.2.2.1 hb8.2.2.2.2
  · intro md5 ns name hlen hbnd
    obtain ⟨d0, d1, d2, d3, d4, d5, d6, d7, d8, d9, d10, d11, d12, d13,
      d14, d15, hd⟩ := exists16_of_length _ hlen
    have hx : ∀ i, i ∈ [d0, d1, d2, d3, d4, d5, d6, d7, d8, d9, d10, d11,
        d12, d13, d14, d15] → i < 256 := by
      rw [← hd]
      exact hbnd
    rw [NewV3_eq md5 ns name d0 d1 d2 d3 d4 d5 d6 d7 d8 d9 d10 d11 d12
      d13 d14 d15 hd]
    have hb6 := verByte_lit_3 d6 (hx d6 (by simp))
    have hb8 := varByte_stamp d8 (hx d8 (by simp))
    have hv := div16_between _ _ hb6.1 (by omega) (by omega)
    exact roundtrip16 _ _ _ _ _ _ _ _ _ _ _ _ _ _ _ _
      (hx d0 (by simp)) (hx d1 (by simp)) (hx d2 (by simp))
      (hx d3 (by simp)) (hx d4 (by simp)) (hx d5 (by simp))
      hb6.2.2 (hx d7 (by simp)) hb8.2.2.1 (hx d9 (by simp))
      (hx d10 (by simp)) (hx d11 (by simp)) (hx d12 (by simp))
      (hx d13 (by simp)) (hx d14 (by simp)) (hx d15 (by simp))
      hv.1 hv.2 hb8.2.2.2.1 hb8.2.2.2.2
  · intro t r0 r1 r2 r3 r4 r5 r6 hr0 hr1 hr2 hr3 hr4 hr5 hr6
    rw [NewV4_eq]
    have hb6 := verByte_lit_4 ((t >>> 56) % 256) (Nat.mod_lt _ (by omega))
    have hb8 := varByte_stamp 0 (by omega)
    have hv := div16_between _ _ hb6.1 (by omega) (by omega)
    exact roundtrip16 _ _ _ _ _ _ _ _ _ _ _ _ _ _ _ _
      (Nat.mod_lt _ (by omega)) (Nat.mod_lt _ (by omega)) (Nat.mod_lt _ (by omega)) (Nat.mod_lt _ (by omega)) (Nat.mod_lt _ (by omega)) (Nat.mod_lt _ (by omega))
      hb6.2.2 (Nat.mod_lt _ (by omega)) hb8.2.2.1 hr0 hr1 hr2 hr3 hr4 hr5 hr6
      hv.1 hv.2 hb8.2.2.2.1 hb8.2.2.2.2
  · intro sha1 ns name hlen hbnd
    obtain ⟨d0, d1, d2, d3, d4, d5, d6, d7, d8, d9, d10, d11, d12, d13,
      d14, d15, d16, d17, d18, d19, hd⟩ := exists20_of_length _ hlen
    have hx : ∀ i, i ∈ [d0, d1, d2, d3, d4, d5, d6, d7, d8, d9, d10, d11,
        d12, d13, d14, d15, d16, d17, d18, d19] → i < 256 := by
      rw [← hd]
      exact hbnd
    rw [NewV5_eq sha1 ns name d0 d1 d2 d3 d4 d5 d6 d7 d8 d9 d10 d11 d12
      d13 d14 d15 d16 d17 d18 d19 hd]
    have hb6 := verByte_lit_5 d6 (hx d6 (by simp))
    have hb8 := varByte_stamp d8 (hx d8 (by simp))
    have hv := div16_between _ _ hb6.1 (by omega) (by omega)
    exact roundtrip16 _ _ _ _ _ _ _ _ _ _ _ _ _ _ _ _
      (hx d0 (by simp)) (hx d1 (by simp)) (hx d2 (by simp))
      (hx d3 (by simp)) (hx d4 (by simp)) (hx d5 (by simp))
      hb6.2.2 (hx d7 (by simp)) hb8.2.2.1 (hx d9 (by simp))
      (hx d10 (by simp)) (hx d11 (by simp)) (hx d12 (by simp))
      (hx d13 (by simp)) (hx d14 (by simp)) (hx d15 (by simp))
      hv.1 hv.2 hb8.2.2.2.1 hb8.2.2.2.2

theorem C4_roundtrip_witness :
    FromString (uuidStringChars (NewV1 0 0 [0, 0, 0, 0, 0, 0]).1) =
      .ok (NewV1 0 0 [0, 0, 0, 0, 0, 0]).1 :=
  C4_roundtrip.1 0 0 0 0 0 0 0 0 (by omega) (by omega) (by omega)
    (by omega) (by omega) (by omega)

/-- C7: FromBytes fails with the size error exactly when the input is
not 16 bytes; on 16 bytes it fails with the format error exactly when
the version nibble of byte 6 is outside 1–5 or the variant nibble of
byte 8 outside 8–11 (hex digits 8, 9, a, b), and otherwise returns the
input bytes; a 10-byte input yields the size error and 16 zero bytes
the format error. -/
theorem C7_fromBytes_errors (b : List Nat) (hb : ∀ x ∈ b, x < 256) :
    (FromBytes b = .error .SizeError ↔ b.length ≠ 16) ∧
    (b.length = 16 →
      ((FromBytes b = .error .FormatError ↔
          ¬((1 ≤ byteAt b 6 / 16 ∧ byteAt b 6 / 16 ≤ 5) ∧
            (8 ≤ byteAt b 8 / 16 ∧ byteAt b 8 / 16 ≤ 11))) ∧
       (((1 ≤ byteAt b 6 / 16 ∧ byteAt b 6 / 16 ≤ 5) ∧
         (8 ≤ byteAt b 8 / 16 ∧ byteAt b 8 / 16 ≤ 11)) →
         FromBytes b = .ok b))) ∧
    FromBytes (List.replicate 10 0) = .error .SizeError ∧
    FromBytes (List.replicate 16 0) = .error .FormatError := by
  have hconc1 : FromBytes (List.replicate 10 0) = .error .SizeError := rfl
  have hconc2 : FromBytes (List.replicate 16 0) = .error .FormatError := rfl
  by_cases hL : b.length = 16
  · obtain ⟨b0, b1, b2, b3, b4, b5, b6, b7, b8, b9, b10, b11, b12, b13, b14, b15, rfl⟩ := exists16_of_length b hL
    have h0 := hb b0 (by simp)
    have h1 := hb b1 (by simp)
    have h2 := hb b2 (by simp)
    have h3 := hb b3 (by simp)
    have h4 := hb b4 (by simp)
    have h5 := hb b5 (by simp)
    have h6 := hb b6 (by simp)
    have h7 := hb b7 (by simp)
    have h8 := hb b8 (by simp)
    have h9 := hb b9 (by simp)
    have h10 := hb b10 (by simp)
    have h11 := hb b11 (by simp)
    have h12 := hb b12 (by simp)
    have h13 := hb b13 (by simp)
    have h14 := hb b14 (by simp)
    have h15 := hb b15 (by simp)
    rw [byteAt_6_of16, byteAt_8_of16]
    refine ⟨?_, ?_, hconc1, hconc2⟩
    · constructor
      · intro hE
        by_cases hc : ((1 ≤ b6 / 16 ∧ b6 / 16 ≤ 5) ∧
            (8 ≤ b8 / 16 ∧ b8 / 16 ≤ 11))
        · rw [FromBytes16_ok b0 b1 b2 b3 b4 b5 b6 b7 b8 b9 b10 b11 b12 b13 b14 b15 h0 h1 h2 h3 h4 h5 h6 h7 h8 h9 h10 h11 h12 h13 h14 h15
            hc.1.1 hc.1.2 hc.2.1 hc.2.2] at hE
          simp at hE
        · rw [FromBytes16_fmt b0 b1 b2 b3 b4 b5 b6 b7 b8 b9 b10 b11 b12 b13 b14 b15 h0 h1 h2 h3 h4 h5 h6 h7 h8 h9 h10 h11 h12 h13 h14 h15 hc] at hE
          simp at hE
      · intro hne
        exact absurd (by simp) hne
    · intro _
      refine ⟨⟨?_, ?_⟩, ?_⟩
      · intro hE
        by_cases hc : ((1 ≤ b6 / 16 ∧ b6 / 16 ≤ 5) ∧
            (8 ≤ b8 / 16 ∧ b8 / 16 ≤ 11))
        · rw [FromBytes16_ok b0 b1 b2 b3 b4 b5 b6 b7 b8 b9 b10 b11 b12 b13 b14 b15 h0 h1 h2 h3 h4 h5 h6 h7 h8 h9 h10 h11 h12 h13 h14 h15
            hc.1.1 hc.1.2 hc.2.1 hc.2.2] at hE
          simp at hE
        · exact hc
      · intro hc
        exact FromBytes16_fmt b0 b1 b2 b3 b4 b5 b6 b7 b8 b9 b10 b11 b12 b13 b14 b15 h0 h1 h2 h3 h4 h5 h6 h7 h8 h9 h10 h11 h12 h13 h14 h15 hc
      · intro hc
        exact FromBytes16_ok b0 b1 b2 b3 b4 b5 b6 b7 b8 b9 b10 b11 b12 b13 b14 b15 h0 h1 h2 h3 h4 h5 h6 h7 h8 h9 h10 h11 h12 h13 h14 h15 hc.1.1 hc.1.2 hc.2.1 hc.2.2
  · have hS : FromBytes b = .error .SizeError := by
      unfold FromBytes
      rw [if_pos (by simpa [uuidSize] using hL)]
    exact ⟨⟨fun _ => hL, fun _ => hS⟩, fun h => absurd h hL, hconc1, hconc2⟩

theorem C7_fromBytes_errors_witness :
    FromBytes (List.replicate 10 0) = .error .SizeError ∧
    FromBytes (List.replicate 16 0) = .error .FormatError :=
  (C7_fromBytes_errors (List.replicate 16 0)
    (fun x hx => by rw [List.eq_of_mem_replicate hx]; omega)).2.2

/-- C8 as stated is false at a concrete input: "00" hex-decodes
successfully to the single byte 0 (length 1 ≠ 16), yet FromString
returns the size error, not the format error the claim names. -/
theorem C8_counterexample :
    hexDecode (("00".toList).filter (fun c => c != '-')) = some [0] ∧
    FromString ("00".toList) = .error .SizeError ∧
    (Except.error UUIDError.SizeError : Except UUIDError (List Nat)) ≠
      .error .FormatError := by
  refine ⟨rfl, rfl, ?_⟩
  intro h
  simp at h

/-- C8 amended: for every input whose hyphen-stripped hex decoding
succeeds but yields a byte sequence of length ≠ 16, FromString fails
with the size error (the length check lives in FromBytes and reports
the size error, not the format error). -/
theorem C8_amended_size_error (s : List Char) (b : List Nat)
    (h : hexDecode (s.filter (fun c => c != '-')) = some b)
    (hlen : b.length ≠ 16) :
    FromString s = .error .SizeError := by
  rw [FromString_eq_of_decode s b h]
  unfold FromBytes
  rw [if_pos (by simpa [uuidSize] using hlen)]

theorem C8_amended_size_error_witness :
    FromString ("00".toList) = .error .SizeError :=
  C8_amended_size_error ("00".toList) [0] rfl (by decide)

/-- C10: FromString's outcome depends only on the hyphen-stripped
characters — hyphen count and placement never matter — and a bare
32-digit hex string satisfying the version/variant digit constraints
parses successfully despite not matching the canonical 8-4-4-4-12
pattern. -/
theorem C10_hyphen_insensitive :
    (∀ s1 s2 : List Char,
      s1.filter (fun c => c != '-') = s2.filter (fun c => c != '-') →
      FromString s1 = FromString s2) ∧
    FromString ("6ba7b8109dad11d180b400c04fd430c8".toList) =
      .ok [0x6b, 0xa7, 0xb8, 0x10, 0x9d, 0xad, 0x11, 0xd1,
           0x80, 0xb4, 0x00, 0xc0, 0x4f, 0xd4, 0x30, 0xc8] := by
  constructor
  · intro s1 s2 h
    unfold FromString
    rw [h]
  · rfl

theorem C10_hyphen_insensitive_witness :
    FromString ("6ba7b810-9dad-11d1-80b4-00c04fd430c8".toList) =
      FromString ("6ba7b8109dad11d180b400c04fd430c8".toList) :=
  C10_hyphen_insensitive.1 _ _ rfl

end Uuid
